import Mathlib

/-!
Shallow embedding of the feature-extraction pipeline of the phishing-website
detection application (src/utils/feature_extractor.py, src/config.py,
src/app.py), together with theorems settling the specification claims.

Python dictionaries holding feature values are modelled as functions
`String → Option Int`; Python strings are modelled as Lean `String`, with
substring tests carried out on the underlying character lists.
-/

namespace PhishDetect

/-- Model of the Python dict `self.features`: a partial map from feature
names to integer codes.  `none` models key absence. -/
def FeatureSet := String → Option Int

/-- Model of the empty dict `{}` that `__init__` assigns to `self.features`. -/
def FeatureSet.empty : FeatureSet := fun _ => Option.none

/-- Model of the dict assignment `self.features[k] = v`. -/
def FeatureSet.insert (fs : FeatureSet) (k : String) (v : Int) : FeatureSet :=
  fun k' => if k' = k then some v else fs k'

theorem FeatureSet.insert_self (fs : FeatureSet) (k : String) (v : Int) :
    (fs.insert k v) k = some v := if_pos rfl

theorem FeatureSet.insert_ne (fs : FeatureSet) (k k' : String) (v : Int)
    (h : k' ≠ k) : (fs.insert k v) k' = fs k' := if_neg h

/-- Model of `url.startswith(p)` / the Python `in`-style substring tests are
below; this one is the prefix test used by `normalize_url`. -/
def strStartsWith (s p : String) : Bool := p.toList.isPrefixOf s.toList

/-- Model of the Python substring test `sub in s`. -/
def strContains (s sub : String) : Bool := decide (sub.toList <:+: s.toList)

/-- Model of `FeatureExtractor.normalize_url` (feature_extractor.py lines
21-25): if the raw string starts with neither `http://` nor `https://`,
prepend `http://`; otherwise return it unchanged. -/
def normalize_url (url : String) : String :=
  if ¬(strStartsWith url "http://" || strStartsWith url "https://") then
    "http://" ++ url
  else url

/-- Model of the result of `urllib.parse.urlparse` on the normalized URL:
the fields of `self.parsed_url` that the extractor reads.  `port` is `none`
when no explicit port is present; the Python attribute is also falsy when
the explicit port is `0`, which the truthiness test in the code sees the
same way as absence. -/
structure ParsedUrl where
  scheme : String
  netloc : String
  path : String
  query : String
  port : Option Nat
deriving DecidableEq

/-- Model of Python's `s.split('.')` on the character list of `s`: `""`
splits to `[""]`, and every `.` opens a new (possibly empty) part. -/
def splitOnDot : List Char → List (List Char)
  | [] => [[]]
  | c :: cs =>
    match splitOnDot cs with
    | [] => []
    | p :: ps => if c = '.' then [] :: p :: ps else (c :: p) :: ps

/-- Model of `re.match(r'^\d+\.\d+\.\d+\.\d+$', s)` being truthy: the string
splits on `.` into exactly four nonempty runs of decimal digits. -/
def matchIpv4Pattern (s : String) : Bool :=
  let parts := splitOnDot s.toList
  parts.length == 4 && parts.all (fun p => ¬p.isEmpty && p.all Char.isDigit)

/-- List of shortener domains hard-coded in `_extract_url_features`
(feature_extractor.py lines 126-127). -/
def shorteners : List String :=
  ["bit.ly", "tinyurl.com", "goo.gl", "t.co", "ow.ly", "is.gd", "buff.ly",
   "bit.do", "mcaf.ee", "rebrand.ly"]

/-- Model of `FeatureExtractor._extract_url_features` (feature_extractor.py
lines 121-140).  `url` is `self.url`, `p` is `self.parsed_url`; `self.domain`
is `p.netloc`.  Each dict assignment becomes a `FeatureSet.insert`, in source
order. -/
def extract_url_features (url : String) (p : ParsedUrl) (fs : FeatureSet) : FeatureSet :=
  let domain := p.netloc
  let fs := fs.insert "url_length" (url.length : Int)
  let fs := fs.insert "having_ip_address" (if matchIpv4Pattern p.netloc then -1 else 1)
  let fs := fs.insert "shortining_service"
    (if shorteners.any (fun sh => strContains url sh) then 1 else -1)
  let fs := fs.insert "having_at_symbol" (if url.toList.contains '@' then 1 else -1)
  let fs := fs.insert "double_slash_redirecting"
    (if strContains (String.mk (url.toList.drop 7)) "//" then 1 else -1)
  let domain_parts := splitOnDot domain.toList
  let fs := fs.insert "prefix_suffix" (if domain.toList.contains '-' then 1 else -1)
  let fs := fs.insert "having_sub_domain"
    (if domain_parts.length > 2 then (domain_parts.length : Int) - 2 else -1)
  let fs := fs.insert "port" (if p.port.getD 0 ≠ 0 then 1 else -1)
  let fs := fs.insert "https_token" (if p.scheme = "https" then 1 else -1)
  fs

/-- Canonical 30-name feature order hard-coded in
`FeatureExtractor.get_feature_vector` (feature_extractor.py lines 203-211). -/
def feature_order : List String :=
  ["having_ip_address", "url_length", "shortining_service", "having_at_symbol",
   "double_slash_redirecting", "prefix_suffix", "having_sub_domain", "sslfinal_state",
   "domain_registration_length", "favicon", "port", "https_token", "request_url",
   "url_of_anchor", "links_in_tags", "sfh", "submitting_to_email", "abnormal_url",
   "redirect", "on_mouseover", "rightclick", "popupwindow", "iframe", "age_of_domain",
   "dnsrecord", "web_traffic", "page_rank", "google_index", "links_pointing_to_page",
   "statistical_report"]

/-- Model of `FeatureExtractor.get_feature_vector` (feature_extractor.py lines
202-213): `[self.features.get(feature, 0) for feature in feature_order]`. -/
def get_feature_vector (fs : FeatureSet) : List Int :=
  feature_order.map (fun f => (fs f).getD 0)

/-- The `FEATURE_NAMES` list of src/config.py lines 15-23, copied verbatim. -/
def FEATURE_NAMES : List String :=
  ["having_ip_address", "url_length", "shortining_service", "having_at_symbol",
   "double_slash_redirecting", "prefix_suffix", "having_sub_domain", "sslfinal_state",
   "domain_registration_length", "favicon", "port", "https_token", "request_url",
   "url_of_anchor", "links_in_tags", "sfh", "submitting_to_email", "abnormal_url",
   "redirect", "on_mouseover", "rightclick", "popupwindow", "iframe", "age_of_domain",
   "dnsrecord", "web_traffic", "page_rank", "google_index", "links_pointing_to_page",
   "statistical_report"]

/-- The `feature_order` list hard-coded in `WebsiteAnalyzer.get_features_array`
(src/app.py lines 160-168), copied verbatim. -/
def app_feature_order : List String :=
  ["having_ip_address", "url_length", "shortining_service", "having_at_symbol",
   "double_slash_redirecting", "prefix_suffix", "having_sub_domain", "sslfinal_state",
   "domain_registration_length", "favicon", "port", "https_token", "request_url",
   "url_of_anchor", "links_in_tags", "sfh", "submitting_to_email", "abnormal_url",
   "redirect", "on_mouseover", "rightclick", "popupwindow", "iframe", "age_of_domain",
   "dnsrecord", "web_traffic", "page_rank", "google_index", "links_pointing_to_page",
   "statistical_report"]

/-- Model of the accumulation loop of `WebsiteAnalyzer.get_features_array`
(src/app.py lines 170-175): `if feature in self.features: append the value,
else append 0`. -/
def get_features_array_loop (fs : FeatureSet) : List String → List Int
  | [] => []
  | f :: rest =>
    (match fs f with
     | some v => v
     | Option.none => 0) :: get_features_array_loop fs rest

/-- Model of `WebsiteAnalyzer.get_features_array` (src/app.py lines 159-177),
up to the final `np.array` wrapping. -/
def get_features_array (fs : FeatureSet) : List Int :=
  get_features_array_loop fs app_feature_order

/-- Model of a Python value that may appear in a WHOIS record's
`creation_date`: either a `datetime` (carrying `(datetime.now() - d).days`)
or a value of some other type (python-whois also returns date strings). -/
inductive PyDateVal where
  | dt (daysAgo : Int)
  | nonDt
deriving DecidableEq

/-- Model of the `creation_date` attribute of a WHOIS record: `absent`
covers `None` and other falsy values, otherwise it is a single value or a
list of values. -/
inductive CreationDate where
  | absent
  | single (d : PyDateVal)
  | listOf (ds : List PyDateVal)
deriving DecidableEq

/-- Model of `min(...)` applied to a Python list of dates.  It raises
(`.error`) on the empty list and on lists mixing datetimes with values of
another type (`TypeError`); on a list of datetimes it returns the earliest
one, i.e. the one with the largest `daysAgo`. -/
def pyMinDates : List PyDateVal → Except Unit PyDateVal
  | [] => Except.error ()
  | d :: ds =>
    if (d :: ds).all (fun x => x matches PyDateVal.dt _) then
      Except.ok (PyDateVal.dt (((d :: ds).map
        (fun x => match x with | PyDateVal.dt n => n | PyDateVal.nonDt => 0)).foldl max
        (match d with | PyDateVal.dt n => n | PyDateVal.nonDt => 0)))
    else if (d :: ds).all (fun x => x matches PyDateVal.nonDt) then
      Except.ok PyDateVal.nonDt
    else Except.error ()

/-- Model of the WHOIS record returned by `whois.whois(url)`: the two
attributes the extractor reads.  `name_servers = []` models the falsy cases
of `hasattr(domain, 'name_servers') and domain.name_servers`. -/
structure WhoisRecord where
  creation_date : CreationDate
  name_servers : List String
deriving DecidableEq

/-- Model of the Fetcher's recorded response, as read by the redirect check:
only the length of `response.history` matters. -/
structure Response where
  historyLen : Nat
deriving DecidableEq

/-- The `if domain.creation_date: ...` block of `_perform_additional_lookups`
(feature_extractor.py lines 179-184), run inside the surrounding `try`.
Returns `.error fs` when the block raises with dict state `fs` (only
`min(...)` can raise here), else `.ok` with the updated dict. -/
def creationDateBlock (cd : CreationDate) (fs : FeatureSet) : Except FeatureSet FeatureSet :=
  match cd with
  | CreationDate.absent => Except.ok fs
  | CreationDate.single d =>
    match d with
    | PyDateVal.dt daysAgo =>
      Except.ok ((fs.insert "age_of_domain" (if daysAgo > 365 then 1 else -1)).insert
        "domain_registration_length" 1)
    | PyDateVal.nonDt => Except.ok fs
  | CreationDate.listOf ds =>
    match pyMinDates ds with
    | Except.error _ => Except.error fs
    | Except.ok d =>
      match d with
      | PyDateVal.dt daysAgo =>
        Except.ok ((fs.insert "age_of_domain" (if daysAgo > 365 then 1 else -1)).insert
          "domain_registration_length" 1)
      | PyDateVal.nonDt => Except.ok fs

/-- Model of the `self.features.update({...})` call at the top of
`_perform_additional_lookups` (feature_extractor.py lines 163-175), which
sets all eleven network-signal keys to 0 before any lookup is attempted. -/
def network_defaults_update (fs : FeatureSet) : FeatureSet :=
  ((((((((((fs.insert "age_of_domain" 0).insert "domain_registration_length" 0).insert
    "dnsrecord" 0).insert "sslfinal_state" 0).insert "redirect" 0).insert
    "web_traffic" 0).insert "page_rank" 0).insert "google_index" 0).insert
    "links_pointing_to_page" 0).insert "statistical_report" 0).insert "abnormal_url" 0

/-- Model of `FeatureExtractor._perform_additional_lookups`
(feature_extractor.py lines 162-200).  `whoisRes` models `whois.whois(url)`
(`.error` when the call raises), `tlsOk` models whether the TLS handshake to
`netloc` on port 443 succeeds, and `response` models `self.response`.  The
eleven keys are first all set to 0 by `self.features.update`; the single
`except:` around the WHOIS, DNS-record and TLS checks sets
`sslfinal_state = -1` on whatever dict state the block had reached; the
redirect check runs in its own `try` afterwards. -/
def perform_additional_lookups (whoisRes : Except Unit WhoisRecord) (tlsOk : Bool)
    (response : Option Response) (fs : FeatureSet) : FeatureSet :=
  let fs := network_defaults_update fs
  let afterTry :=
    match whoisRes with
    | Except.error _ => fs.insert "sslfinal_state" (-1)
    | Except.ok w =>
      match creationDateBlock w.creation_date fs with
      | Except.error fsRaised => fsRaised.insert "sslfinal_state" (-1)
      | Except.ok fs1 =>
        let fs2 := fs1.insert "dnsrecord" (if w.name_servers ≠ [] then 1 else -1)
        if tlsOk then fs2.insert "sslfinal_state" 1
        else fs2.insert "sslfinal_state" (-1)
  match response with
  | some r => afterTry.insert "redirect" (if r.historyLen > 0 then 1 else -1)
  | Option.none => afterTry

/-- Model of the parsed document (`self.soup`) as read by
`_extract_html_features`: serialized form markup, presence of an iframe,
the joined inline-script text, the serialized whole document, the `href`
values of anchors carrying one, and presence of a `<link rel="icon">`. -/
structure Soup where
  forms : List String
  hasIframe : Bool
  scriptText : String
  docString : String
  anchorHrefs : List String
  hasIconLink : Bool

/-- Model of `FeatureExtractor._extract_html_features` (feature_extractor.py
lines 142-160), with each dict assignment in source order. -/
def extract_html_features (s : Soup) (fs : FeatureSet) : FeatureSet :=
  let fs := fs.insert "sfh" (if s.forms ≠ [] then 1 else -1)
  let fs := fs.insert "submitting_to_email"
    (if s.forms.any (fun f => strContains f "mailto:") then 1 else -1)
  let fs := fs.insert "iframe" (if s.hasIframe then 1 else -1)
  let fs := fs.insert "popupwindow" (if strContains s.scriptText "window.open" then 1 else -1)
  let fs := fs.insert "on_mouseover" (if strContains s.docString "onmouseover=" then 1 else -1)
  let fs := fs.insert "rightclick" (if strContains s.scriptText "event.button==2" then 1 else -1)
  let fs := fs.insert "url_of_anchor"
    (if s.anchorHrefs.any (fun a => strContains a "http") then 1 else -1)
  let fs := fs.insert "links_in_tags" (s.anchorHrefs.length : Int)
  let fs := fs.insert "favicon" (if s.hasIconLink then 1 else -1)
  fs

/-- Model of `FeatureExtractor.extract_all_features` (feature_extractor.py
lines 111-119): URL features always, HTML features only when `self.soup` is
set (i.e. when the fetch succeeded), then the additional lookups.
`self.features` starts as the empty dict from `__init__`. -/
def extract_all_features (url : String) (p : ParsedUrl) (soup : Option Soup)
    (whoisRes : Except Unit WhoisRecord) (tlsOk : Bool) (response : Option Response) :
    FeatureSet :=
  let fs := extract_url_features url p FeatureSet.empty
  let fs :=
    match soup with
    | some s => extract_html_features s fs
    | Option.none => fs
  perform_additional_lookups whoisRes tlsOk response fs

/-- Classes of failure of one full GET attempt, following the exception
classes distinguished by `fetch_website`: `sslError` and `proxyError` are the
classes named by the inner handler; `timeout`, `connError` and `httpError`
(from `raise_for_status`) are the other `RequestException` subclasses the
code can see; `nonRequestExc` is any other exception, caught by the final
`except Exception` handler. -/
inductive FailKind where
  | sslError
  | proxyError
  | timeout
  | connError
  | httpError
  | otherRequestExc
  | nonRequestExc
deriving DecidableEq

/-- Outcome of one GET attempt by the HTTP client: a successful response
body together with its redirect-history length, or a failure of some class. -/
inductive AttemptResult where
  | ok (body : String) (historyLen : Nat)
  | fail (k : FailKind)
deriving DecidableEq

/-- Behaviour of the underlying HTTP client: the outcome of the GET request
for a given scheme, attempt index and certificate-verification flag.  The
best-effort HEAD request issued before each GET has its failures logged and
ignored, so it does not appear in the model. -/
def FetchBehavior := String → Nat → Bool → AttemptResult

/-- Record of one attempt actually made by the Fetcher: the scheme tried,
the attempt index, the `verify_ssl` flag used, and the outcome. -/
structure Trial where
  scheme : String
  attempt : Nat
  verify : Bool
  result : AttemptResult
deriving DecidableEq

/-- Model of the URL rebuilt at the top of each attempt
(feature_extractor.py lines 52-54). -/
def buildUrl (scheme : String) (p : ParsedUrl) : String :=
  let u := scheme ++ "://" ++ p.netloc ++ p.path
  if p.query ≠ "" then u ++ "?" ++ p.query else u

/-- Data recorded by `fetch_website` on a successful attempt: the exact URL
used (assigned to `self.url`), the body (`self.html_content`) and the
redirect-history length. -/
structure FetchSuccess where
  finalUrl : String
  body : String
  historyLen : Nat
deriving DecidableEq

/-- The inner attempt loop `for attempt in range(max_retries + 1)` of
`fetch_website` (feature_extractor.py lines 50-106) for one scheme, started
at attempt index `a` with `rem` attempts remaining.  Returns the list of
trials made and the successful result, if any.  `verify_ssl = (attempt == 0)`.
On an `SSLError`/`ProxyError`, the inner handler `continue`s when retries
remain and verification was on, and otherwise re-raises into the
`RequestException` handler, which also `continue`s; every other exception is
likewise caught and `continue`s, so every failure advances to the next
attempt index. -/
def runAttempts (b : FetchBehavior) (p : ParsedUrl) (scheme : String)
    (maxRetries : Nat) : Nat → Nat → List Trial × Option FetchSuccess
  | _, 0 => ([], Option.none)
  | a, rem + 1 =>
    let verify := a == 0
    match b scheme a verify with
    | AttemptResult.ok body hist =>
      ([⟨scheme, a, verify, AttemptResult.ok body hist⟩],
       some ⟨buildUrl scheme p, body, hist⟩)
    | AttemptResult.fail k =>
      let t : Trial := ⟨scheme, a, verify, AttemptResult.fail k⟩
      let next := runAttempts b p scheme maxRetries (a + 1) rem
      match k with
      | FailKind.sslError =>
        if a < maxRetries && verify then (t :: next.1, next.2)
        else (t :: next.1, next.2)
      | FailKind.proxyError =>
        if a < maxRetries && verify then (t :: next.1, next.2)
        else (t :: next.1, next.2)
      | FailKind.timeout => (t :: next.1, next.2)
      | FailKind.connError => (t :: next.1, next.2)
      | FailKind.httpError => (t :: next.1, next.2)
      | FailKind.otherRequestExc => (t :: next.1, next.2)
      | FailKind.nonRequestExc => (t :: next.1, next.2)

/-- The `schemes_to_try` list built by `fetch_website` (feature_extractor.py
lines 41-45): the URL's own scheme first, then the other of http/https. -/
def schemesToTry (scheme : String) : List String :=
  if scheme = "http" then [scheme, "https"]
  else if scheme = "https" then [scheme, "http"]
  else [scheme]

/-- The outer scheme loop of `fetch_website`: run the attempt loop for each
scheme in turn, stopping at the first success. -/
def runSchemes (b : FetchBehavior) (p : ParsedUrl) (maxRetries : Nat) :
    List String → List Trial × Option FetchSuccess
  | [] => ([], Option.none)
  | s :: rest =>
    let r := runAttempts b p s maxRetries 0 (maxRetries + 1)
    match r.2 with
    | some succ => (r.1, some succ)
    | Option.none =>
      let r' := runSchemes b p maxRetries rest
      (r.1 ++ r'.1, r'.2)

/-- Full run of `FeatureExtractor.fetch_website` (feature_extractor.py lines
27-109): the trials made, paired with the successful result if any scheme ×
attempt combination succeeded. -/
def fetchRun (b : FetchBehavior) (p : ParsedUrl) (maxRetries : Nat) :
    List Trial × Option FetchSuccess :=
  runSchemes b p maxRetries (schemesToTry p.scheme)

/-- Observable outcome of `fetch_website` for its caller: the returned
boolean, paired with the final value of `self.html_content` (initialized to
`None` in `__init__` and only assigned on a successful attempt).  The
function is total: every exception raised inside the loops is caught there. -/
def fetch_website (b : FetchBehavior) (p : ParsedUrl) (maxRetries : Nat) :
    Bool × Option String :=
  match (fetchRun b p maxRetries).2 with
  | some succ => (true, some succ.body)
  | Option.none => (false, Option.none)

theorem strStartsWith_append (p s : String) : strStartsWith (p ++ s) p = true := by
  simp [strStartsWith]

/-- C5: for every raw input string, the URL Normalizer returns the string
unchanged if it starts with `http://` or `https://`, and otherwise returns
`http://` prepended to it; consequently every normalized URL begins with
`http://` or `https://`. -/
theorem C5_normalize_url (url : String) :
    normalize_url url =
      (if strStartsWith url "http://" || strStartsWith url "https://" then url
       else "http://" ++ url) ∧
    (strStartsWith (normalize_url url) "http://" ||
      strStartsWith (normalize_url url) "https://") = true := by
  constructor
  · unfold normalize_url
    split_ifs <;> simp_all
  · unfold normalize_url
    split_ifs with h
    · simpa using h
    · simp [strStartsWith_append]

/-- C3: the Feature Vector Assembler is total and returns exactly 30 slots;
slot `i` holds the FeatureSet's value for the `i`-th canonical feature name,
or 0 when that name is absent, and the empty FeatureSet yields the all-zero
vector. -/
theorem C3_get_feature_vector (fs : FeatureSet) :
    (get_feature_vector fs).length = 30 ∧
    (∀ (i : Nat) (name : String), feature_order[i]? = some name →
      (get_feature_vector fs)[i]? = some ((fs name).getD 0)) ∧
    get_feature_vector FeatureSet.empty = List.replicate 30 0 := by
  refine ⟨by simp [get_feature_vector, feature_order], ?_, by decide⟩
  intro i name h
  simp [get_feature_vector, List.getElem?_map, h]

theorem C3_get_feature_vector_witness :
    (get_feature_vector FeatureSet.empty).length = 30 ∧
    (get_feature_vector FeatureSet.empty)[0]? =
      some ((FeatureSet.empty "having_ip_address").getD 0) ∧
    get_feature_vector FeatureSet.empty = List.replicate 30 0 := by
  have h := C3_get_feature_vector FeatureSet.empty
  exact ⟨h.1, h.2.1 0 "having_ip_address" rfl, h.2.2⟩

theorem get_features_array_loop_eq_map (fs : FeatureSet) (l : List String) :
    get_features_array_loop fs l = l.map (fun f => (fs f).getD 0) := by
  induction l with
  | nil => rfl
  | cons f rest ih =>
    simp only [get_features_array_loop, List.map_cons, ih]
    cases fs f <;> rfl

/-- C10: the canonical 30-name order hard-coded in `get_feature_vector` is
element-for-element identical to `FEATURE_NAMES` in config.py and to the
`feature_order` list in `WebsiteAnalyzer.get_features_array`, so the two
assemblers produce the same vector from every FeatureSet. -/
theorem C10_feature_order_agreement (fs : FeatureSet) :
    feature_order = FEATURE_NAMES ∧ FEATURE_NAMES = app_feature_order ∧
    get_feature_vector fs = get_features_array fs := by
  refine ⟨rfl, rfl, ?_⟩
  rw [get_features_array, get_features_array_loop_eq_map]
  rfl

theorem extract_url_features_apply (url : String) (p : ParsedUrl) (fs : FeatureSet)
    (k : String) :
    extract_url_features url p fs k =
      (if k = "https_token" then some (if p.scheme = "https" then 1 else -1)
       else if k = "port" then some (if p.port.getD 0 ≠ 0 then 1 else -1)
       else if k = "having_sub_domain" then
         some (if (splitOnDot p.netloc.toList).length > 2 then
           ((splitOnDot p.netloc.toList).length : Int) - 2 else -1)
       else if k = "prefix_suffix" then
         some (if p.netloc.toList.contains '-' then 1 else -1)
       else if k = "double_slash_redirecting" then
         some (if strContains (String.mk (url.toList.drop 7)) "//" then 1 else -1)
       else if k = "having_at_symbol" then
         some (if url.toList.contains '@' then 1 else -1)
       else if k = "shortining_service" then
         some (if shorteners.any (fun sh => strContains url sh) then 1 else -1)
       else if k = "having_ip_address" then
         some (if matchIpv4Pattern p.netloc then -1 else 1)
       else if k = "url_length" then some (url.length : Int)
       else fs k) := rfl

/-- C7: the Lexical Feature Deriver sets `having_ip_address` to -1 exactly
when the authority matches `^\d+\.\d+\.\d+\.\d+$`, and to 1 otherwise; in
particular `192.168.1.1` matches and `example.com` does not. -/
theorem C7_having_ip_address (url : String) (p : ParsedUrl) (fs : FeatureSet) :
    (extract_url_features url p fs) "having_ip_address" =
      some (if matchIpv4Pattern p.netloc then -1 else 1) ∧
    matchIpv4Pattern "192.168.1.1" = true ∧
    matchIpv4Pattern "example.com" = false := by
  refine ⟨?_, by decide, by decide⟩
  simp [extract_url_features_apply]

set_option maxHeartbeats 1600000 in
/-- C8: the Lexical Feature Deriver is a deterministic pure function of the
URL string and the ParsedURL: running it a second time over its own output
leaves every entry of the FeatureSet unchanged. -/
theorem C8_lexical_idempotent (url : String) (p : ParsedUrl) (fs : FeatureSet)
    (k : String) :
    extract_url_features url p (extract_url_features url p fs) k =
      extract_url_features url p fs k := by
  rw [extract_url_features_apply url p (extract_url_features url p fs) k,
    extract_url_features_apply url p fs k]
  split_ifs <;> rfl

/-- C2: whenever the WHOIS lookup raises, the Network Signal Deriver sets
`sslfinal_state` to -1, whatever the TLS handshake would have done, because
one exception handler wraps the WHOIS, DNS-record and TLS checks together. -/
theorem C2_whois_failure_forces_sslfinal_state (tlsOk : Bool)
    (response : Option Response) (fs : FeatureSet) :
    perform_additional_lookups (Except.error ()) tlsOk response fs
      "sslfinal_state" = some (-1) := by
  cases response <;> simp [perform_additional_lookups, FeatureSet.insert]

/-- The eleven keys that `_perform_additional_lookups` initializes to 0 via
`self.features.update` (feature_extractor.py lines 163-175). -/
def network_feature_keys : List String :=
  ["age_of_domain", "domain_registration_length", "dnsrecord", "sslfinal_state",
   "redirect", "web_traffic", "page_rank", "google_index", "links_pointing_to_page",
   "statistical_report", "abnormal_url"]

theorem FeatureSet.insert_isSome (fs : FeatureSet) (k k' : String) (v : Int)
    (h : (fs k).isSome) : ((fs.insert k' v) k).isSome := by
  unfold FeatureSet.insert
  split
  · rfl
  · exact h

theorem creationDateBlock_shape (cd : CreationDate) (fs : FeatureSet) :
    creationDateBlock cd fs = Except.ok fs ∨
    creationDateBlock cd fs = Except.error fs ∨
    ∃ daysAgo : Int, creationDateBlock cd fs =
      Except.ok ((fs.insert "age_of_domain" (if daysAgo > 365 then 1 else -1)).insert
        "domain_registration_length" 1) := by
  rcases cd with _ | d | ds
  · exact Or.inl rfl
  · rcases d with n | _
    · exact Or.inr (Or.inr ⟨n, rfl⟩)
    · exact Or.inl rfl
  · simp only [creationDateBlock]
    rcases hm : pyMinDates ds with _ | d
    · exact Or.inr (Or.inl rfl)
    · rcases d with n | _
      · exact Or.inr (Or.inr ⟨n, rfl⟩)
      · exact Or.inl rfl

theorem creationDateBlock_ok_isSome (cd : CreationDate) (fs f : FeatureSet) (k : String)
    (h : (fs k).isSome) (he : creationDateBlock cd fs = Except.ok f) :
    (f k).isSome := by
  rcases creationDateBlock_shape cd fs with h1 | h1 | ⟨n, h1⟩ <;> rw [h1] at he
  · injection he with h2
    rw [← h2]
    exact h
  · exact absurd he (by simp)
  · injection he with h2
    rw [← h2]
    exact FeatureSet.insert_isSome _ _ _ _ (FeatureSet.insert_isSome _ _ _ _ h)

theorem creationDateBlock_error_isSome (cd : CreationDate) (fs f : FeatureSet) (k : String)
    (h : (fs k).isSome) (he : creationDateBlock cd fs = Except.error f) :
    (f k).isSome := by
  rcases creationDateBlock_shape cd fs with h1 | h1 | ⟨n, h1⟩ <;> rw [h1] at he
  · exact absurd he (by simp)
  · injection he with h2
    rw [← h2]
    exact h
  · exact absurd he (by simp)

theorem perform_additional_lookups_isSome (whoisRes : Except Unit WhoisRecord)
    (tlsOk : Bool) (response : Option Response) (fs : FeatureSet) (k : String)
    (h : ((network_defaults_update fs) k).isSome) :
    ((perform_additional_lookups whoisRes tlsOk response fs) k).isSome := by
  unfold perform_additional_lookups
  rcases whoisRes with _ | w <;> dsimp only
  · rcases response with _ | r <;> dsimp only
    · exact FeatureSet.insert_isSome _ _ _ _ h
    · exact FeatureSet.insert_isSome _ _ _ _ (FeatureSet.insert_isSome _ _ _ _ h)
  · rcases hcb : creationDateBlock w.creation_date (network_defaults_update fs) with f | f <;>
      dsimp only
    · have hf := creationDateBlock_error_isSome w.creation_date
        (network_defaults_update fs) f k h hcb
      rcases response with _ | r <;> dsimp only
      · exact FeatureSet.insert_isSome _ _ _ _ hf
      · exact FeatureSet.insert_isSome _ _ _ _ (FeatureSet.insert_isSome _ _ _ _ hf)
    · have hf := creationDateBlock_ok_isSome w.creation_date
        (network_defaults_update fs) f k h hcb
      rcases response with _ | r <;> cases tlsOk <;> dsimp only <;>
        first
        | exact FeatureSet.insert_isSome _ _ _ _
            (FeatureSet.insert_isSome _ _ _ _ hf)
        | exact FeatureSet.insert_isSome _ _ _ _ (FeatureSet.insert_isSome _ _ _ _
            (FeatureSet.insert_isSome _ _ _ _ hf))

/-- C9: after `_perform_additional_lookups` the FeatureSet contains all eleven
network-signal keys, each bound to an integer, whatever the WHOIS, TLS or
redirect lookups did, because all eleven are initialized to 0 before any
lookup is attempted. -/
theorem C9_network_keys_always_present (whoisRes : Except Unit WhoisRecord)
    (tlsOk : Bool) (response : Option Response) (fs : FeatureSet) (k : String)
    (hk : k ∈ network_feature_keys) :
    ∃ v : Int, perform_additional_lookups whoisRes tlsOk response fs k = some v := by
  have h : ((network_defaults_update fs) k).isSome := by
    simp only [network_feature_keys, List.mem_cons, List.not_mem_nil, or_false] at hk
    rcases hk with rfl | rfl | rfl | rfl | rfl | rfl | rfl | rfl | rfl | rfl | rfl <;>
      simp [network_defaults_update, FeatureSet.insert]
  exact Option.isSome_iff_exists.mp
    (perform_additional_lookups_isSome whoisRes tlsOk response fs k h)

theorem C9_network_keys_always_present_witness :
    ∃ v : Int, perform_additional_lookups (Except.error ()) false Option.none
      FeatureSet.empty "sslfinal_state" = some v :=
  C9_network_keys_always_present (Except.error ()) false Option.none
    FeatureSet.empty "sslfinal_state" (by decide)

/-- The nine keys written by `_extract_url_features`. -/
def lexical_feature_keys : List String :=
  ["url_length", "having_ip_address", "shortining_service", "having_at_symbol",
   "double_slash_redirecting", "prefix_suffix", "having_sub_domain", "port",
   "https_token"]

/-- The nine keys written by `_extract_html_features`, i.e. the structural
features that exist only when HTML content was obtained. -/
def structural_feature_keys : List String :=
  ["sfh", "submitting_to_email", "iframe", "popupwindow", "on_mouseover",
   "rightclick", "url_of_anchor", "links_in_tags", "favicon"]

theorem extract_url_features_preserves (url : String) (p : ParsedUrl) (fs : FeatureSet)
    (k : String) (h : k ∉ lexical_feature_keys) :
    extract_url_features url p fs k = fs k := by
  simp only [lexical_feature_keys, List.mem_cons, List.not_mem_nil, or_false] at h
  push_neg at h
  obtain ⟨h1, h2, h3, h4, h5, h6, h7, h8, h9⟩ := h
  rw [extract_url_features_apply]
  simp [h1, h2, h3, h4, h5, h6, h7, h8, h9]

theorem network_defaults_update_preserves (fs : FeatureSet) (k : String)
    (h1 : k ≠ "age_of_domain") (h2 : k ≠ "domain_registration_length")
    (h3 : k ≠ "dnsrecord") (h4 : k ≠ "sslfinal_state") (h5 : k ≠ "redirect")
    (h6 : k ≠ "web_traffic") (h7 : k ≠ "page_rank") (h8 : k ≠ "google_index")
    (h9 : k ≠ "links_pointing_to_page") (h10 : k ≠ "statistical_report")
    (h11 : k ≠ "abnormal_url") :
    network_defaults_update fs k = fs k := by
  simp [network_defaults_update, FeatureSet.insert,
    h1, h2, h3, h4, h5, h6, h7, h8, h9, h10, h11]

theorem creationDateBlock_ok_preserves (cd : CreationDate) (fs f : FeatureSet)
    (k : String) (h1 : k ≠ "age_of_domain") (h2 : k ≠ "domain_registration_length")
    (he : creationDateBlock cd fs = Except.ok f) : f k = fs k := by
  rcases creationDateBlock_shape cd fs with hs | hs | ⟨n, hs⟩ <;> rw [hs] at he
  · injection he with h3
    rw [← h3]
  · exact absurd he (by simp)
  · injection he with h3
    rw [← h3]
    simp [FeatureSet.insert, h1, h2]

theorem creationDateBlock_error_preserves (cd : CreationDate) (fs f : FeatureSet)
    (k : String) (he : creationDateBlock cd fs = Except.error f) : f k = fs k := by
  rcases creationDateBlock_shape cd fs with hs | hs | ⟨n, hs⟩ <;> rw [hs] at he
  · exact absurd he (by simp)
  · injection he with h3
    rw [← h3]
  · exact absurd he (by simp)

theorem perform_additional_lookups_preserves (whoisRes : Except Unit WhoisRecord)
    (tlsOk : Bool) (response : Option Response) (fs : FeatureSet) (k : String)
    (h : k ∉ network_feature_keys) :
    perform_additional_lookups whoisRes tlsOk response fs k = fs k := by
  simp only [network_feature_keys, List.mem_cons, List.not_mem_nil, or_false] at h
  push_neg at h
  obtain ⟨h1, h2, h3, h4, h5, h6, h7, h8, h9, h10, h11⟩ := h
  have hinit := network_defaults_update_preserves fs k h1 h2 h3 h4 h5 h6 h7 h8 h9 h10 h11
  unfold perform_additional_lookups
  rcases whoisRes with _ | w <;> dsimp only
  · rcases response with _ | r <;> dsimp only <;>
      simp [FeatureSet.insert, h4, h5, hinit]
  · rcases hcb : creationDateBlock w.creation_date (network_defaults_update fs) with f | f <;>
      dsimp only
    · have hf := creationDateBlock_error_preserves w.creation_date
        (network_defaults_update fs) f k hcb
      rcases response with _ | r <;> dsimp only <;>
        simp [FeatureSet.insert, h4, h5, hf, hinit]
    · have hf := creationDateBlock_ok_preserves w.creation_date
        (network_defaults_update fs) f k h1 h2 hcb
      rcases response with _ | r <;> cases tlsOk <;> dsimp only <;>
        simp [FeatureSet.insert, h3, h4, h5, hf, hinit]

/-- C4: when the fetch obtained no HTML content (no parsed document), none of
the nine structural feature keys is present in the extracted FeatureSet, and
the Assembler fills each of their vector slots with 0, not -1. -/
theorem C4_structural_keys_absent_on_fetch_failure (url : String) (p : ParsedUrl)
    (whoisRes : Except Unit WhoisRecord) (tlsOk : Bool) (response : Option Response)
    (k : String) (hk : k ∈ structural_feature_keys) :
    extract_all_features url p Option.none whoisRes tlsOk response k = Option.none ∧
    ∀ i : Nat, feature_order[i]? = some k →
      (get_feature_vector
        (extract_all_features url p Option.none whoisRes tlsOk response))[i]? = some 0 := by
  have key : ∀ k' : String, k' ∉ lexical_feature_keys → k' ∉ network_feature_keys →
      extract_all_features url p Option.none whoisRes tlsOk response k' = Option.none := by
    intro k' hl hn
    unfold extract_all_features
    dsimp only
    rw [perform_additional_lookups_preserves _ _ _ _ _ hn,
      extract_url_features_preserves _ _ _ _ hl]
    rfl
  have habs : extract_all_features url p Option.none whoisRes tlsOk response k =
      Option.none := by
    fin_cases hk <;> exact key _ (by decide) (by decide)
  refine ⟨habs, ?_⟩
  intro i hi
  simp [get_feature_vector, List.getElem?_map, hi, habs]

/-- A ParsedURL for `http://example.com`, used to instantiate universally
quantified theorems at a concrete input. -/
def exampleParsed : ParsedUrl :=
  ⟨"http", "example.com", "", "", Option.none⟩

theorem C4_structural_keys_absent_on_fetch_failure_witness :
    extract_all_features "http://example.com" exampleParsed Option.none
      (Except.error ()) false Option.none "sfh" = Option.none ∧
    ∀ i : Nat, feature_order[i]? = some "sfh" →
      (get_feature_vector (extract_all_features "http://example.com" exampleParsed
        Option.none (Except.error ()) false Option.none))[i]? = some 0 :=
  C4_structural_keys_absent_on_fetch_failure "http://example.com" exampleParsed
    (Except.error ()) false Option.none "sfh" (by decide)

theorem runAttempts_ok_eq (b : FetchBehavior) (p : ParsedUrl) (s : String)
    (mr a rem : Nat) (body : String) (hist : Nat)
    (hk : b s a (a == 0) = AttemptResult.ok body hist) :
    runAttempts b p s mr a (rem + 1) =
      ([⟨s, a, a == 0, AttemptResult.ok body hist⟩],
       some ⟨buildUrl s p, body, hist⟩) := by
  simp only [runAttempts]
  rw [hk]

theorem runAttempts_fail_eq (b : FetchBehavior) (p : ParsedUrl) (s : String)
    (mr a rem : Nat) (k : FailKind) (hk : b s a (a == 0) = AttemptResult.fail k) :
    runAttempts b p s mr a (rem + 1) =
      (⟨s, a, a == 0, AttemptResult.fail k⟩ :: (runAttempts b p s mr (a + 1) rem).1,
       (runAttempts b p s mr (a + 1) rem).2) := by
  simp only [runAttempts]
  rw [hk]
  cases k <;> simp

theorem runAttempts_trace_mem (b : FetchBehavior) (p : ParsedUrl) (s : String)
    (mr : Nat) : ∀ rem a t, t ∈ (runAttempts b p s mr a rem).1 →
      t.scheme = s ∧ t.verify = (t.attempt == 0) ∧ a ≤ t.attempt ∧ t.attempt < a + rem := by
  intro rem
  induction rem with
  | zero =>
    intro a t ht
    simp [runAttempts] at ht
  | succ n ih =>
    intro a t ht
    rcases hk : b s a (a == 0) with ⟨body, hist⟩ | ⟨k⟩
    · rw [runAttempts_ok_eq b p s mr a n body hist hk] at ht
      simp only [List.mem_singleton] at ht
      subst ht
      exact ⟨rfl, rfl, Nat.le_refl a, by show a < a + (n + 1); omega⟩
    · rw [runAttempts_fail_eq b p s mr a n k hk] at ht
      rcases List.mem_cons.mp ht with rfl | ht'
      · exact ⟨rfl, rfl, Nat.le_refl a, by show a < a + (n + 1); omega⟩
      · obtain ⟨g1, g2, g3, g4⟩ := ih (a + 1) t ht'
        exact ⟨g1, g2, by omega, by omega⟩

theorem runAttempts_trace_pred (b : FetchBehavior) (p : ParsedUrl) (s : String)
    (mr : Nat) : ∀ rem a t, t ∈ (runAttempts b p s mr a rem).1 → t.attempt ≠ a →
      ∃ t' ∈ (runAttempts b p s mr a rem).1,
        t'.attempt + 1 = t.attempt ∧ ∃ k, t'.result = AttemptResult.fail k := by
  intro rem
  induction rem with
  | zero =>
    intro a t ht
    simp [runAttempts] at ht
  | succ n ih =>
    intro a t ht hne
    rcases hk : b s a (a == 0) with ⟨body, hist⟩ | ⟨k⟩
    · rw [runAttempts_ok_eq b p s mr a n body hist hk] at ht
      simp only [List.mem_singleton] at ht
      subst ht
      exact absurd rfl hne
    · rw [runAttempts_fail_eq b p s mr a n k hk] at ht ⊢
      rcases List.mem_cons.mp ht with rfl | ht'
      · exact absurd rfl hne
      · by_cases ha : t.attempt = a + 1
        · exact ⟨⟨s, a, a == 0, AttemptResult.fail k⟩, List.mem_cons_self _ _,
            ha.symm, k, rfl⟩
        · obtain ⟨t', ht'mem, g1, g2⟩ := ih (a + 1) t ht' ha
          exact ⟨t', List.mem_cons_of_mem _ ht'mem, g1, g2⟩

theorem runSchemes_trace_mem (b : FetchBehavior) (p : ParsedUrl) (mr : Nat) :
    ∀ l t, t ∈ (runSchemes b p mr l).1 →
      ∃ s ∈ l, t ∈ (runAttempts b p s mr 0 (mr + 1)).1 ∧
        ∀ u ∈ (runAttempts b p s mr 0 (mr + 1)).1, u ∈ (runSchemes b p mr l).1 := by
  intro l
  induction l with
  | nil =>
    intro t ht
    simp [runSchemes] at ht
  | cons s rest ih =>
    intro t ht
    simp only [runSchemes] at ht ⊢
    rcases hr : (runAttempts b p s mr 0 (mr + 1)).2 with _ | succ <;>
      rw [hr] at ht <;> dsimp only at ht ⊢
    · rcases List.mem_append.mp ht with ht1 | ht2
      · exact ⟨s, List.mem_cons_self _ _, ht1,
          fun u hu => List.mem_append_left _ hu⟩
      · obtain ⟨s', hs', htr', hcont⟩ := ih t ht2
        exact ⟨s', List.mem_cons_of_mem _ hs', htr',
          fun u hu => List.mem_append_right _ (hcont u hu)⟩
    · exact ⟨s, List.mem_cons_self _ _, ht, fun u hu => hu⟩

/-- C1 (amended): for every scheme tried by the Fetcher, the attempt at index
0 verifies TLS certificates and every later attempt runs with verification
off; a later attempt exists only because the attempt just before it (same
scheme) failed — with any failure class, not only a TLS/proxy-layer error. -/
theorem C1_first_attempt_verifies_rest_relaxed (b : FetchBehavior) (p : ParsedUrl)
    (mr : Nat) (t : Trial) (ht : t ∈ (fetchRun b p mr).1) :
    t.verify = (t.attempt == 0) ∧
    ∀ n, t.attempt = n + 1 →
      ∃ t' ∈ (fetchRun b p mr).1, t'.scheme = t.scheme ∧ t'.attempt = n ∧
        ∃ k, t'.result = AttemptResult.fail k := by
  obtain ⟨s, _, htr, hcont⟩ :=
    runSchemes_trace_mem b p mr (schemesToTry p.scheme) t ht
  obtain ⟨hsc, hver, _, _⟩ := runAttempts_trace_mem b p s mr (mr + 1) 0 t htr
  refine ⟨hver, ?_⟩
  intro n hn
  obtain ⟨t', ht'mem, g1, g2⟩ :=
    runAttempts_trace_pred b p s mr (mr + 1) 0 t htr (by omega)
  obtain ⟨hsc', _, _, _⟩ := runAttempts_trace_mem b p s mr (mr + 1) 0 t' ht'mem
  refine ⟨t', hcont t' ht'mem, ?_, by omega, g2⟩
  rw [hsc', hsc]

/-- A client behaviour on which every attempt times out, used as the concrete
input for the fetch theorems. -/
def allTimeoutBehavior : FetchBehavior := fun _ _ _ => AttemptResult.fail FailKind.timeout

theorem C1_first_attempt_verifies_rest_relaxed_witness :
    (false : Bool) = ((1 : Nat) == 0) ∧
    ∀ n : Nat, (1 : Nat) = n + 1 →
      ∃ t' ∈ (fetchRun allTimeoutBehavior exampleParsed 2).1,
        t'.scheme = "http" ∧ t'.attempt = n ∧
        ∃ k, t'.result = AttemptResult.fail k :=
  C1_first_attempt_verifies_rest_relaxed allTimeoutBehavior exampleParsed 2
    ⟨"http", 1, false, AttemptResult.fail FailKind.timeout⟩ (by decide)

/-- The property asserted by the original claim C1: the first attempt of each
scheme verifies certificates, and an attempt without verification is made
only when the attempt just before it (same scheme) failed specifically with
a TLS/proxy-layer error. -/
def relaxedVerificationJustified (trace : List Trial) : Prop :=
  (∀ t ∈ trace, t.attempt = 0 → t.verify = true) ∧
  (∀ t ∈ trace, t.verify = false →
    ∃ t' ∈ trace, t'.scheme = t.scheme ∧ t'.attempt + 1 = t.attempt ∧
      (t'.result = AttemptResult.fail FailKind.sslError ∨
       t'.result = AttemptResult.fail FailKind.proxyError))

/-- C1 (counterexample): on a client where every attempt fails with a
timeout — not a TLS/proxy-layer error — the Fetcher still makes its second
and third attempts per scheme without certificate verification. -/
theorem C1_relaxed_retry_after_timeout_counterexample :
    ¬ relaxedVerificationJustified (fetchRun allTimeoutBehavior exampleParsed 2).1 := by
  unfold relaxedVerificationJustified
  decide

theorem runAttempts_all_fail (b : FetchBehavior) (p : ParsedUrl) (s : String)
    (mr : Nat) (h : ∀ a v, ∃ k, b s a v = AttemptResult.fail k) :
    ∀ rem a, (runAttempts b p s mr a rem).2 = Option.none := by
  intro rem
  induction rem with
  | zero => intro a; rfl
  | succ n ih =>
    intro a
    obtain ⟨k, hk⟩ := h a (a == 0)
    rw [runAttempts_fail_eq b p s mr a n k hk]
    exact ih (a + 1)

/-- C6: if every scheme × attempt combination fails — whatever the failure
classes — `fetch_website` returns `False` with `html_content` left `None`;
no exception reaches the caller (the model is a total function). -/
theorem C6_fetch_returns_false_when_all_fail (b : FetchBehavior) (p : ParsedUrl)
    (mr : Nat) (h : ∀ s a v, ∃ k, b s a v = AttemptResult.fail k) :
    fetch_website b p mr = (false, Option.none) := by
  have hrs : ∀ l, (runSchemes b p mr l).2 = Option.none := by
    intro l
    induction l with
    | nil => rfl
    | cons s rest ih =>
      simp only [runSchemes]
      rw [runAttempts_all_fail b p s mr (fun a v => h s a v) (mr + 1) 0]
      exact ih
  unfold fetch_website fetchRun
  rw [hrs]

theorem C6_fetch_returns_false_when_all_fail_witness :
    fetch_website allTimeoutBehavior exampleParsed 2 = (false, Option.none) :=
  C6_fetch_returns_false_when_all_fail allTimeoutBehavior exampleParsed 2
    (fun _ _ _ => ⟨FailKind.timeout, rfl⟩)

end PhishDetect
